import Mathlib

/-!
Verification development for the Ruffle load manager (`core/src/loader.rs`).

The definitions below are a shallow embedding of the loader subsystem:
GC pointers (display objects, script objects, loader-info objects, players,
net streams, parsed movies) are modelled as opaque `Nat` identifiers; byte
buffers are `List Nat`; script-visible side effects (property sets, method
calls, event dispatches, stream buffering) are recorded as values of an
explicit `Evt` type in the order the code performs them.  External
collaborators (the fetcher, the SWF parser, the image decoder) are modelled
by parameters: a fetch result is an input to the future's behaviour, and
fallible external steps (SWF parse, bitmap decode, AVM2 event-object
construction) are Boolean success flags, since only success/failure is
observable in `loader.rs`.
-/

/-- `ContentType` from loader.rs (superset of `JpegTagFormat`). -/
inductive ContentType
  | swf
  | jpeg
  | png
  | gif
  | unknown
deriving DecidableEq, Repr

/-- `DataFormat` from loader.rs (`URLLoader` data formats). -/
inductive DataFormat
  | binary
  | text
  | variables
deriving DecidableEq, Repr

/-- `LoaderStatus` from loader.rs: completion status of a movie loader. -/
inductive LoaderStatus
  | pending
  | parsing
  | succeeded
  | failed
deriving DecidableEq, BEq, Repr

/-- The `Error` enum of loader.rs (payloads that matter to control flow only). -/
inductive LoadError
  | cancelled
  | notRootMovieLoader
  | notMovieLoader
  | notFormLoader
  | notLoadVarsLoader
  | notLoadDataLoader
  | notSoundLoader
  | notNetStreamLoader
  | fetchError
  | invalidSwf
  | invalidBitmap
  | invalidSound
  | unexpectedData (expected actual : ContentType)
  | avm1Error (msg : String)
  | avm2Error (msg : String)
deriving DecidableEq, Repr

/-- `MovieLoaderEventHandler` from loader.rs: which event dialect a movie
load speaks.  The payload is the id of the broadcaster / loader-info object. -/
inductive MovieLoaderEventHandler
  | avm1Broadcast (broadcaster : Nat)
  | avm2LoaderInfo (loaderInfo : Nat)
deriving DecidableEq, Repr

/-- The `Loader` enum of loader.rs: one tagged record per load kind.
GC'd targets are `Nat` ids; `movie` holds the id of the parsed `SwfMovie`
when present; `avm2Data` stands for the optional `Avm2LoaderData`. -/
inductive Loader
  | rootMovie (selfHandle : Option Nat)
  | movie (selfHandle : Option Nat) (targetClip : Nat)
      (eventHandler : Option MovieLoaderEventHandler)
      (loaderStatus : LoaderStatus) (movie : Option Nat) (avm2Data : Option Nat)
  | form (selfHandle : Option Nat) (targetObject : Nat)
  | loadVars (selfHandle : Option Nat) (targetObject : Nat)
  | loadURLLoader (selfHandle : Option Nat) (targetObject : Nat)
  | soundAvm1 (selfHandle : Option Nat) (targetObject : Nat)
  | soundAvm2 (selfHandle : Option Nat) (targetObject : Nat)
  | netStream (selfHandle : Option Nat) (targetStream : Nat)
deriving DecidableEq, Repr

/-- The `self_handle` field common to all eight `Loader` variants. -/
def Loader.selfHandleOf : Loader → Option Nat
  | .rootMovie sh => sh
  | .movie sh _ _ _ _ _ => sh
  | .form sh _ => sh
  | .loadVars sh _ => sh
  | .loadURLLoader sh _ => sh
  | .soundAvm1 sh _ => sh
  | .soundAvm2 sh _ => sh
  | .netStream sh _ => sh

/-- `*self_handle = Some(handle)`, executed by `add_loader` on every variant. -/
def Loader.withSelfHandle : Loader → Nat → Loader
  | .rootMovie _, h => .rootMovie (some h)
  | .movie _ tc eh st mv ad, h => .movie (some h) tc eh st mv ad
  | .form _ t, h => .form (some h) t
  | .loadVars _ t, h => .loadVars (some h) t
  | .loadURLLoader _ t, h => .loadURLLoader (some h) t
  | .soundAvm1 _ t, h => .soundAvm1 (some h) t
  | .soundAvm2 _ t, h => .soundAvm2 (some h) t
  | .netStream _ t, h => .netStream (some h) t

/-- Whether a record is the `Form` variant. -/
def Loader.isForm : Loader → Bool
  | .form _ _ => true
  | _ => false

/-- Whether a record is the `LoadVars` variant. -/
def Loader.isLoadVars : Loader → Bool
  | .loadVars _ _ => true
  | _ => false

/-- Whether a record is the `LoadURLLoader` variant. -/
def Loader.isLoadURLLoader : Loader → Bool
  | .loadURLLoader _ _ => true
  | _ => false

/-- Whether a record is the `SoundAvm1` variant. -/
def Loader.isSoundAvm1 : Loader → Bool
  | .soundAvm1 _ _ => true
  | _ => false

/-- Whether a record is the `SoundAvm2` variant. -/
def Loader.isSoundAvm2 : Loader → Bool
  | .soundAvm2 _ _ => true
  | _ => false

/-- Whether a record is the `NetStream` variant. -/
def Loader.isNetStream : Loader → Bool
  | .netStream _ _ => true
  | _ => false

/-- Whether a record is a `Movie` whose `loader_status` is `Parsing`
(the guard used by `LoadManager::preload_tick`). -/
def Loader.isParsingMovie : Loader → Bool
  | .movie _ _ _ .parsing _ _ => true
  | _ => false

/-- A script value as observed through loader side effects.  Strings built by
`AvmString::new_utf8` / `new_utf8_bytes` from a response body are modelled as
the byte sequence they decode (`utf8Str`); Rust string literals are `litStr`. -/
inductive AvmValue
  | undefined
  | num (n : Nat)
  | utf8Str (bytes : List Nat)
  | litStr (s : String)
  | byteArray (bytes : List Nat)
  | obj (id : Nat)
deriving DecidableEq, Repr

/-- A script-visible side effect performed by loader code, in program order. -/
inductive Evt
  | broadcast (broadcaster : Nat) (eventName : String) (args : List AvmValue)
  | bareEvent (target : Nat) (name : String)
  | progressEvt (target : Nat) (cur total : Nat)
  | ioErrorEvt (target : Nat) (msg : String) (code : Nat)
  | setLoaderStreamNotYetLoaded (target : Nat)
  | setLoaderStreamSwf (target : Nat)
  | insertAtIndexZero (loaderObj : Nat)
  | parsedMovie
  | setRootMovie
  | clipReset
  | replaceWithMovie
  | replaceAtDepth
  | setData (target : Nat) (v : AvmValue)
  | setProp (target : Nat) (name : String) (v : AvmValue)
  | callMethod (target : Nat) (name : String) (args : List AvmValue)
  | streamLoadBuffer (stream : Nat) (body : List Nat)
  | streamReportError (stream : Nat)
deriving DecidableEq, Repr

/-- Result of running a loader future / update-section callback. -/
inductive RunResult
  | ok
  | err (e : LoadError)
deriving DecidableEq, Repr

/-- Result of `Loader::preload_tick`: `Ok(did_finish)` or an error. -/
inductive TickResult
  | ok (finished : Bool)
  | err (e : LoadError)
deriving DecidableEq, Repr

/-- The `LoadManager` arena (`Arena<Loader>`).  Handles are list indices; a
removed record leaves a `none` slot so stale handles stay invalid, and
`insert` appends so fresh handles never alias (the generational-index
property the source relies on). -/
structure LoaderArena where
  slots : List (Option Loader)
deriving DecidableEq, Repr

/-- `Arena::insert`: returns the new arena and the fresh handle. -/
def LoaderArena.insertLoader (m : LoaderArena) (l : Loader) : LoaderArena × Nat :=
  (⟨m.slots ++ [some l]⟩, m.slots.length)

/-- `LoadManager::get_loader`. -/
def LoaderArena.getLoader (m : LoaderArena) (h : Nat) : Option Loader :=
  (m.slots.get? h).bind id

/-- Store a record at an existing handle (the effect of mutating through
`get_loader_mut`). -/
def LoaderArena.setLoader (m : LoaderArena) (h : Nat) (l : Loader) : LoaderArena :=
  ⟨m.slots.set h (some l)⟩

/-- `LoadManager::add_loader`: insert the record, then stamp its
`self_handle` with the returned handle.  The `none` arm mirrors the
`.unwrap()` on `get_loader_mut(handle)`, which cannot fire because the
record was just inserted. -/
def LoaderArena.addLoader (m : LoaderArena) (l : Loader) : LoaderArena × Nat :=
  let r := m.insertLoader l
  match r.1.getLoader r.2 with
  | some stored => (r.1.setLoader r.2 (stored.withSelfHandle r.2), r.2)
  | none => r

/-- Outcome of the handle-lookup `match` at the head of a completion
callback: the target was found, a `Loader::Error` was returned, or the code
hit `unreachable!()` / a panic. -/
inductive LookupOutcome
  | found (target : Nat)
  | failed (e : LoadError)
  | panicked
deriving DecidableEq, Repr

/-- The lookup match in `form_loader`'s completion callback. -/
def formLoaderLookup : Option Loader → LookupOutcome
  | some (.form _ t) => .found t
  | none => .failed .cancelled
  | some _ => .failed .notFormLoader

/-- The lookup match in `load_vars_loader`'s completion callback. -/
def loadVarsLoaderLookup : Option Loader → LookupOutcome
  | some (.loadVars _ t) => .found t
  | none => .failed .cancelled
  | some _ => .failed .notLoadVarsLoader

/-- The lookup match in `load_url_loader`'s completion callback: any shape
other than a present `LoadURLLoader` record hits `unreachable!()`. -/
def loadUrlLoaderLookup : Option Loader → LookupOutcome
  | some (.loadURLLoader _ t) => .found t
  | _ => .panicked

/-- The lookup match in `sound_loader_avm1`'s completion callback. -/
def soundLoaderAvm1Lookup : Option Loader → LookupOutcome
  | some (.soundAvm1 _ t) => .found t
  | none => .failed .cancelled
  | some _ => .failed .notSoundLoader

/-- The lookup match in `sound_loader_avm2`'s completion callback. -/
def soundLoaderAvm2Lookup : Option Loader → LookupOutcome
  | some (.soundAvm2 _ t) => .found t
  | none => .failed .cancelled
  | some _ => .failed .notSoundLoader

/-- The lookup match in `stream_loader`'s completion callback. -/
def netStreamLoaderLookup : Option Loader → LookupOutcome
  | some (.netStream _ t) => .found t
  | none => .failed .cancelled
  | some _ => .failed .notNetStreamLoader

/-- What constructing a loader future yields, before any await: an
immediately-erroring future (wrong-kind `self` match), a panic (a failed
`expect`), or a future that has captured the upgraded strong player
reference `player` together with the extracted handle. -/
inductive BuildResult
  | immediateError (e : LoadError)
  | panicked (msg : String)
  | futureHolding (handle : Nat) (player : Nat)
deriving DecidableEq, Repr

/-- The synchronous prologue of `Loader::movie_loader`: match `self` for the
handle (`expect "Loader not self-introduced"`), then
`player.upgrade().expect("Could not upgrade weak reference to player")`.
The weak reference is `Option Nat`: `some p` upgrades to the strong `p`. -/
def movieLoaderBuild : Loader → Option Nat → BuildResult
  | .movie (some h) _ _ _ _ _, some p => .futureHolding h p
  | .movie (some _) _ _ _ _ _, none =>
      .panicked "Could not upgrade weak reference to player"
  | .movie none _ _ _ _ _, _ => .panicked "Loader not self-introduced"
  | _, _ => .immediateError .notMovieLoader

/-- The synchronous prologue of `Loader::sound_loader_avm2` (same shape as
`movie_loader`; the wrong-kind error is `NotLoadDataLoader` in the source). -/
def soundLoaderAvm2Build : Loader → Option Nat → BuildResult
  | .soundAvm2 (some h) _, some p => .futureHolding h p
  | .soundAvm2 (some _) _, none =>
      .panicked "Could not upgrade weak reference to player"
  | .soundAvm2 none _, _ => .panicked "Loader not self-introduced"
  | _, _ => .immediateError .notLoadDataLoader

/-- The synchronous prologue of `Loader::stream_loader` exactly as written in
the source: the handle extraction matches `Loader::SoundAvm2 { self_handle, .. }`
(not `Loader::NetStream`), and every other variant returns a future that
immediately yields `Error::NotLoadDataLoader`. -/
def streamLoaderBuild : Loader → Option Nat → BuildResult
  | .soundAvm2 (some h) _, some p => .futureHolding h p
  | .soundAvm2 (some _) _, none =>
      .panicked "Could not upgrade weak reference to player"
  | .soundAvm2 none _, _ => .panicked "Loader not self-introduced"
  | _, _ => .immediateError .notLoadDataLoader

/-- The update-section body of `stream_loader`'s future, given the record
found for its handle and the fetch result (`some body` on success): append
the body to the stream's buffer, or report the error to the stream. -/
def streamLoaderCallback (lookup : Option Loader) (resp : Option (List Nat)) :
    List Evt × RunResult :=
  match netStreamLoaderLookup lookup with
  | .found s =>
    match resp with
    | some body => ([Evt.streamLoadBuffer s body], .ok)
    | none => ([Evt.streamReportError s], .ok)
  | .failed e => ([], .err e)
  | .panicked => ([], .err .cancelled)

/-- `LoadManager::load_netstream`: register a `NetStream` record (the future
is then built from the stored record by `stream_loader`). -/
def loadNetstream (m : LoaderArena) (targetStream : Nat) : LoaderArena × Nat :=
  m.addLoader (.netStream none targetStream)

/-- The `set_data` helper of `load_url_loader`: turn a body into the value
stored on the target's `data` property, per `DataFormat`.  `Variables` is
unimplemented in the source and stores `Undefined` (after a log warning). -/
def setDataValue (body : List Nat) : DataFormat → AvmValue
  | .binary => .byteArray body
  | .text => .utf8Str body
  | .variables => .undefined

/-- The update-section body of `load_url_loader`'s future once the target is
found, given the fetch result (`some body` on success).  Success: dispatch
`open`, set `data`, dispatch `complete`.  Failure: clear `data` by applying
the format to an empty buffer, then dispatch
`ioError("Error #2032: Stream Error", 2032)`.  (AVM2 event-object
construction is treated as succeeding.) -/
def loadUrlLoaderApply (target : Nat) (fmt : DataFormat) (resp : Option (List Nat)) :
    List Evt :=
  match resp with
  | some body =>
      [Evt.bareEvent target "open",
       Evt.setData target (setDataValue body fmt),
       Evt.bareEvent target "complete"]
  | none =>
      [Evt.setData target (setDataValue [] fmt),
       Evt.ioErrorEvt target "Error #2032: Stream Error" 2032]

/-- The update-section body of `load_vars_loader`'s future once the target is
found: on success set `_bytesTotal`, set `_bytesLoaded` when the body is
non-empty, call `onHTTPStatus(200)` then `onData` with the decoded text
(`Undefined` for an empty body); on failure call `onHTTPStatus(404)` then
`onData(Undefined)`.  (AVM1 property setters are treated as succeeding.) -/
def loadVarsApply (target : Nat) (resp : Option (List Nat)) : List Evt :=
  match resp with
  | some body =>
      [Evt.setProp target "_bytesTotal" (.num body.length)]
      ++ (if 0 < body.length
          then [Evt.setProp target "_bytesLoaded" (.num body.length)] else [])
      ++ [Evt.callMethod target "onHTTPStatus" [.num 200],
          Evt.callMethod target "onData"
            [if body.length = 0 then AvmValue.undefined else .utf8Str body]]
  | none =>
      [Evt.callMethod target "onHTTPStatus" [.num 404],
       Evt.callMethod target "onData" [AvmValue.undefined]]

/-- `Loader::movie_loader_start` event emission: `onLoadStart` broadcast for
the AVM1 sink, a bare `open` event for the AVM2 sink, nothing otherwise. -/
def movieLoaderStartEvents (eh : Option MovieLoaderEventHandler) (clip : Nat) :
    List Evt :=
  match eh with
  | some (.avm1Broadcast b) => [Evt.broadcast b "onLoadStart" [.obj clip]]
  | some (.avm2LoaderInfo li) => [Evt.bareEvent li "open"]
  | none => []

/-- `Loader::movie_loader_progress`: the emitted events and, for the AVM2
sink, whether constructing the `ProgressEvent` failed (`progressOk = false`
models the `.map_err(...)?` on `progressevent.construct`). -/
def movieLoaderProgressStep (eh : Option MovieLoaderEventHandler) (clip cur total : Nat)
    (progressOk : Bool) : List Evt × Option LoadError :=
  match eh with
  | some (.avm1Broadcast b) =>
      ([Evt.broadcast b "onLoadProgress" [.obj clip, .num cur, .num total]], none)
  | some (.avm2LoaderInfo li) =>
      if progressOk then ([Evt.progressEvt li cur total], none)
      else ([], some (.avm2Error "ProgressEvent"))
  | none => ([], none)

/-- `Loader::movie_loader_complete` event emission: `onLoadComplete(0)`
broadcast for AVM1, installing the fully-loaded `LoaderStream` for AVM2
(the AVM2 `complete` itself fires later, from the clip's exit-frame). -/
def movieLoaderCompleteEvents (eh : Option MovieLoaderEventHandler) (clip : Nat) :
    List Evt :=
  match eh with
  | some (.avm1Broadcast b) => [Evt.broadcast b "onLoadComplete" [.obj clip, .num 0]]
  | some (.avm2LoaderInfo li) => [Evt.setLoaderStreamSwf li]
  | none => []

/-- `Loader::movie_loader_error` event emission: `onLoadError` broadcast for
AVM1; an `ioError` event for AVM2, whose `IOErrorEvent` construction can fail
(`errorEvtOk = false`), in which case the error propagates before the status
is set to `Failed`. -/
def movieLoaderErrorStep (eh : Option MovieLoaderEventHandler) (clip : Nat)
    (errorEvtOk : Bool) : List Evt × Option LoadError :=
  match eh with
  | some (.avm1Broadcast b) =>
      ([Evt.broadcast b "onLoadError" [.obj clip, .litStr "LoadNeverCompleted"]], none)
  | some (.avm2LoaderInfo li) =>
      if errorEvtOk then ([Evt.ioErrorEvt li "Movie loader error" 0], none)
      else ([], some (.avm2Error "IOErrorEvent"))
  | none => ([], none)

/-- Output of one `Loader::preload_tick` on a present `Movie` record: emitted
events, the `Result<bool>` value, and the status writes it performs
(`[.succeeded]` exactly when `movie_loader_complete` is reached). -/
structure TickOut where
  evts : List Evt
  result : TickResult
  statusDelta : List LoaderStatus
deriving DecidableEq, Repr

/-- `Loader::preload_tick` on a present `Movie` record.  `movieLoaded` is
`movie.is_some()`; `targetIsMovieClip` is `target_clip.as_movie_clip().is_some()`;
`didFinish` is what `mc.preload(context, limit)` returns; `cl`/`ct` are the
clip's compressed loaded/total byte counters; `loaderPropOk` models the
fallible `loader_info.get_public_property("loader", ..)` in the AVM2 finish
path.  Mirrors loader.rs lines 607-711. -/
def loaderPreloadTickRun (eh : Option MovieLoaderEventHandler) (clip : Nat)
    (movieLoaded targetIsMovieClip didFinish progressOk loaderPropOk : Bool)
    (cl ct : Nat) : TickOut :=
  if movieLoaded = false then ⟨[], .ok false, []⟩
  else if targetIsMovieClip = false then ⟨[], .ok false, []⟩
  else
    let p := movieLoaderProgressStep eh clip cl ct progressOk
    match p.2 with
    | some e => ⟨p.1, .err e, []⟩
    | none =>
      if didFinish = false then ⟨p.1, .ok false, []⟩
      else
        match eh with
        | some (.avm2LoaderInfo li) =>
          if loaderPropOk = false then
            ⟨p.1 ++ [Evt.setLoaderStreamNotYetLoaded li], .err (.avm2Error "loader"), []⟩
          else
            ⟨p.1 ++ [Evt.setLoaderStreamNotYetLoaded li, Evt.insertAtIndexZero li]
               ++ movieLoaderCompleteEvents eh clip, .ok true, [.succeeded]⟩
        | eh2 =>
            ⟨p.1 ++ movieLoaderCompleteEvents eh2 clip, .ok true, [.succeeded]⟩

/-- Output of a movie-loader code path: emitted events, its `Result<()>`,
and the sequence of `loader_status` writes it performs, in order. -/
structure RunOut where
  evts : List Evt
  result : RunResult
  statusDelta : List LoaderStatus
deriving DecidableEq, Repr

/-- `Loader::preload_tick(..)?` inside `movie_loader_data`: the boolean is
dropped, the error propagates. -/
def tickToRunResult : TickResult → RunResult
  | .ok _ => .ok
  | .err e => .err e

/-- The per-load configuration of a movie load's environment: ids of the GC
objects involved and the outcomes of the external/fallible steps the code
consults (`parseOk` = `SwfMovie::from_data`, `decodeOk` =
`decode_define_bits_jpeg`, `preloadFinishes` = `mc.preload` under the
synchronous 10000-op/1ms budget, `progressOk`/`loaderPropOk`/`errorEvtOk` =
the fallible AVM2 steps). -/
structure MovieRunCfg where
  clip : Nat
  eventHandler : Option MovieLoaderEventHandler
  targetIsMovieClip : Bool
  parseOk : Bool
  decodeOk : Bool
  preloadFinishes : Bool
  progressOk : Bool
  loaderPropOk : Bool
  errorEvtOk : Bool
  compressedLoaded : Nat
  compressedTotal : Nat
deriving DecidableEq, Repr

/-- The update-section body of `Loader::movie_loader_data` (loader.rs
1391-1537) after the SWZ retry has settled on a final `sniffed` type, for a
present `Movie` record.  `inMemory` is the `loadBytes` flag.  SWF: parse,
set `Parsing`, (AVM2: optional `NotYetLoaded` stream, initial
`progress(0, len)`), replace the clip's movie, then one synchronous preload
tick.  JPEG/PNG/GIF: (AVM2: initial progress), decode, install bitmap, then
final progress + complete.  Unknown: length is reported as 0, then final
progress + complete. -/
def movieLoaderDataCore (cfg : MovieRunCfg) (inMemory : Bool)
    (sniffed : ContentType) (len0 : Nat) : RunOut :=
  let length := if sniffed = ContentType.unknown then 0 else len0
  match sniffed with
  | .swf =>
    if cfg.parseOk = false then ⟨[], .err .invalidSwf, []⟩
    else
      let replaceEvts := if cfg.targetIsMovieClip then [Evt.replaceWithMovie] else []
      match cfg.eventHandler with
      | some (.avm2LoaderInfo li) =>
        let memEvts := if inMemory then [Evt.setLoaderStreamNotYetLoaded li] else []
        if cfg.progressOk = false then
          ⟨Evt.parsedMovie :: memEvts, .err (.avm2Error "ProgressEvent"), [.parsing]⟩
        else
          let t := loaderPreloadTickRun cfg.eventHandler cfg.clip true
                     cfg.targetIsMovieClip cfg.preloadFinishes cfg.progressOk
                     cfg.loaderPropOk cfg.compressedLoaded cfg.compressedTotal
          ⟨Evt.parsedMovie :: memEvts ++ [Evt.progressEvt li 0 length]
             ++ replaceEvts ++ t.evts,
           tickToRunResult t.result, LoaderStatus.parsing :: t.statusDelta⟩
      | eh2 =>
          let t := loaderPreloadTickRun eh2 cfg.clip true
                     cfg.targetIsMovieClip cfg.preloadFinishes cfg.progressOk
                     cfg.loaderPropOk cfg.compressedLoaded cfg.compressedTotal
          ⟨Evt.parsedMovie :: replaceEvts ++ t.evts,
           tickToRunResult t.result, LoaderStatus.parsing :: t.statusDelta⟩
  | .unknown =>
      let p := movieLoaderProgressStep cfg.eventHandler cfg.clip length length
                 cfg.progressOk
      match p.2 with
      | some e => ⟨p.1, .err e, []⟩
      | none =>
          ⟨p.1 ++ movieLoaderCompleteEvents cfg.eventHandler cfg.clip,
           .ok, [.succeeded]⟩
  | _ =>
      let initial : List Evt × Option LoadError :=
        match cfg.eventHandler with
        | some (.avm2LoaderInfo li) =>
            if cfg.progressOk then ([Evt.progressEvt li 0 length], none)
            else ([], some (.avm2Error "ProgressEvent"))
        | _ => ([], none)
      match initial.2 with
      | some e => ⟨initial.1, .err e, []⟩
      | none =>
        if cfg.decodeOk = false then ⟨initial.1, .err .invalidBitmap, []⟩
        else
          let replaceEvts :=
            if cfg.targetIsMovieClip then [Evt.replaceWithMovie, Evt.replaceAtDepth]
            else []
          let p := movieLoaderProgressStep cfg.eventHandler cfg.clip length length
                     cfg.progressOk
          match p.2 with
          | some e => ⟨initial.1 ++ replaceEvts ++ p.1, .err e, []⟩
          | none =>
              ⟨initial.1 ++ replaceEvts ++ p.1
                 ++ movieLoaderCompleteEvents cfg.eventHandler cfg.clip,
               .ok, [.succeeded]⟩

/-- Result of the fetch as seen by `movie_loader`: on success the body is
characterized by its sniffed content type and length. -/
inductive FetchOutcome
  | success (sniffed : ContentType) (len : Nat)
  | failure
deriving DecidableEq, Repr

/-- The whole future built by `Loader::movie_loader` (loader.rs 772-843),
for a record still present at callback time (`recordPresent`).  First update
section: reset the clip (when it is a movie clip) and emit the start event —
this happens before `fetch.await`.  Then: on fetch failure run
`movie_loader_error`; on success either replace the root movie (sniff must
be SWF) or run `movie_loader_data` with `in_memory = false`. -/
def movieLoaderRun (cfg : MovieRunCfg) (replacingRoot recordPresent : Bool)
    (f : FetchOutcome) : RunOut :=
  if recordPresent = false then ⟨[], .err .cancelled, []⟩
  else
    let pre := (if cfg.targetIsMovieClip then [Evt.clipReset] else [])
               ++ movieLoaderStartEvents cfg.eventHandler cfg.clip
    match f with
    | .failure =>
        let e := movieLoaderErrorStep cfg.eventHandler cfg.clip cfg.errorEvtOk
        match e.2 with
        | some er => ⟨pre ++ e.1, .err er, []⟩
        | none => ⟨pre ++ e.1, .ok, [.failed]⟩
    | .success sniffed len =>
        if replacingRoot then
          if sniffed = ContentType.swf then
            if cfg.parseOk then ⟨pre ++ [Evt.parsedMovie, Evt.setRootMovie], .ok, []⟩
            else ⟨pre, .err .invalidSwf, []⟩
          else ⟨pre, .err (.unexpectedData .swf sniffed), []⟩
        else
          let d := movieLoaderDataCore cfg false sniffed len
          ⟨pre ++ d.evts, d.result, d.statusDelta⟩

/-- The sequence of `loader_status` values observed over a `Movie` record's
lifetime: `Pending` at registration, the writes performed by the future's
run, and — when the run leaves the record in `Parsing` — `Succeeded` if a
later per-frame `preload_tick` eventually finishes it (`laterFinish`). -/
def movieLifetimeTrace (cfg : MovieRunCfg) (replacingRoot recordPresent laterFinish : Bool)
    (f : FetchOutcome) : List LoaderStatus :=
  let r := movieLoaderRun cfg replacingRoot recordPresent f
  let t := LoaderStatus.pending :: r.statusDelta
  if r.statusDelta.getLast? = some LoaderStatus.parsing ∧ laterFinish = true
  then t ++ [LoaderStatus.succeeded] else t

/-- The status sequences the spec's invariant should allow, as refined by the
code: the image and Unknown paths jump `Pending → Succeeded` directly. -/
def traceAllowed (t : List LoaderStatus) : Bool :=
  t.isPrefixOf [LoaderStatus.pending, LoaderStatus.parsing, LoaderStatus.succeeded]
  || t.isPrefixOf [LoaderStatus.pending, LoaderStatus.succeeded]
  || t.isPrefixOf [LoaderStatus.pending, LoaderStatus.failed]

/-- The per-entry environment a manager-level preload tick sees: the target
clip's nature, what `mc.preload` returns this tick, the fallible AVM2 steps,
and the compressed byte counters. -/
structure TickEnv where
  targetIsMovieClip : Bool
  didFinish : Bool
  progressOk : Bool
  loaderPropOk : Bool
  compressedLoaded : Nat
  compressedTotal : Nat
deriving DecidableEq, Repr

/-- One record in the load manager at the start of a manager tick, together
with the environment its own `Loader::preload_tick` would run in. -/
structure LoadEntry where
  loader : Loader
  env : TickEnv
deriving DecidableEq, Repr

/-- `Loader::preload_tick` as invoked by the manager on an entry.  For a
`Movie` record the embedding above runs with `movie.is_some()` taken from
the record; the manager only invokes it on `Movie` records in `Parsing`, so
the non-movie arm (a panic in the source) is never reached from
`managerPreloadTickRun`. -/
def entryTick (e : LoadEntry) : TickOut :=
  match e.loader with
  | .movie _ clip eh _ mv _ =>
      loaderPreloadTickRun eh clip mv.isSome e.env.targetIsMovieClip
        e.env.didFinish e.env.progressOk e.env.loaderPropOk
        e.env.compressedLoaded e.env.compressedTotal
  | _ => ⟨[], .ok false, []⟩

/-- `LoadManager::preload_tick` (loader.rs 430-449): fold over all records;
for each `Movie` in `Parsing`, advance it; `Ok(f)` is and-ed into the
accumulator, an `Err` is logged and leaves the accumulator unchanged.  The
second component collects the entries that were advanced. -/
def managerPreloadTickRun (entries : List LoadEntry) : Bool × List LoadEntry :=
  entries.foldl
    (fun acc e =>
      if e.loader.isParsingMovie then
        match (entryTick e).result with
        | .ok f => (acc.1 && f, acc.2 ++ [e])
        | .err _ => (acc.1, acc.2 ++ [e])
      else acc)
    (true, [])

/-- The boolean `LoadManager::preload_tick` returns. -/
def managerPreloadTick (entries : List LoadEntry) : Bool :=
  (managerPreloadTickRun entries).1

/-- How the fold actually treats one entry: a non-`Parsing`-movie entry and
an errored advance both leave the accumulator unchanged (count as finished). -/
def entryTickTreatedFinished (e : LoadEntry) : Bool :=
  if e.loader.isParsingMovie then
    match (entryTick e).result with
    | .ok f => f
    | .err _ => true
  else true

/-- Modelled from the spec claim's words: whether this entry "finished
preloading during the tick" — i.e. its `mc.preload` actually ran and
returned true. -/
def entryFinishedPreloading (e : LoadEntry) : Bool :=
  match e.loader with
  | .movie _ _ _ _ mv _ =>
      mv.isSome && e.env.targetIsMovieClip && e.env.didFinish
  | _ => false

/-- Modelled from the spec claim's words: "every Movie either finished
preloading during the tick or was not in the Parsing state when it began". -/
def allFinishedOrNotParsing (entries : List LoadEntry) : Bool :=
  entries.all fun e => !e.loader.isParsingMovie || entryFinishedPreloading e

/-- The SWZ retry at the head of `movie_loader_data` (loader.rs 1399-1406):
when the bytes sniff as `Unknown` and `extract_swz` succeeds, the extracted
bytes are re-submitted through `movie_loader_data`.  This counts the number
of re-submissions; `sniff` and `extract` are parameters because
`ContentType::sniff` and `swf::read::extract_swz` call code external to the
loader.  `fuel` bounds the unrolling (the Rust recursion has no bound of its
own). -/
def swzRetryCount (sniff : List Nat → ContentType)
    (extract : List Nat → Option (List Nat)) : Nat → List Nat → Nat
  | 0, _ => 0
  | fuel + 1, data =>
      if sniff data = ContentType.unknown then
        match extract data with
        | some d => 1 + swzRetryCount sniff extract fuel d
        | none => 0
      else 0

/-- A sniffer under which every buffer is `Unknown` (e.g. buffers with no SWF
or image magic; the spec's round-trip table has `sniff(random_bytes) = Unknown`). -/
def sniffAllUnknown : List Nat → ContentType := fun _ => ContentType.unknown

/-- An extractor that succeeds twice in a row — a doubly nested SWZ container:
each successful extraction yields another buffer that extracts again. -/
def extractTwice : List Nat → Option (List Nat) :=
  fun d => if d.length < 2 then some (0 :: d) else none

/-- A sniffer for the single-level witness: only `[0]` is `Unknown`. -/
def sniffOnce : List Nat → ContentType :=
  fun d => if d = [0] then ContentType.unknown else ContentType.swf

/-- An extractor for the single-level witness: only `[0]` extracts. -/
def extractOnce : List Nat → Option (List Nat) :=
  fun d => if d = [0] then some [1] else none

lemma listGetConcatLength {α : Type} (xs : List α) (a : α) :
    (xs ++ [a]).get? xs.length = some a := by
  induction xs with
  | nil => rfl
  | cons x xs ih => exact ih

lemma listGetSetSelf {α : Type} (xs : List α) (n : Nat) (a : α) (h : n < xs.length) :
    (xs.set n a).get? n = some a := by
  induction xs generalizing n with
  | nil => simp at h
  | cons x xs ih =>
    cases n with
    | zero => rfl
    | succ k => simpa using ih k (by simpa using h)

lemma selfHandleOf_withSelfHandle (l : Loader) (h : Nat) :
    (l.withSelfHandle h).selfHandleOf = some h := by
  cases l <;> rfl

/-- C10: for every loader record of every kind, immediately after
`add_loader` returns handle `h`, the record stored at `h` has its
`self_handle` field equal to `Some(h)`. -/
theorem add_loader_stamps_self_handle (m : LoaderArena) (l : Loader) :
    ((m.addLoader l).1.getLoader (m.addLoader l).2).map Loader.selfHandleOf
      = some (some (m.addLoader l).2) := by
  have h1 : (⟨m.slots ++ [some l]⟩ : LoaderArena).getLoader m.slots.length = some l := by
    simp [LoaderArena.getLoader, listGetConcatLength]
  have h2 : ((m.slots ++ [some l]).set m.slots.length
        (some (l.withSelfHandle m.slots.length))).get? m.slots.length
      = some (some (l.withSelfHandle m.slots.length)) :=
    listGetSetSelf _ _ _ (by simp)
  simp [LoaderArena.addLoader, LoaderArena.insertLoader, h1, LoaderArena.setLoader,
        LoaderArena.getLoader, h2, selfHandleOf_withSelfHandle]

/-- C1: the future actually returned by `load_netstream` never fetches: the
handle extraction in `stream_loader` matches `Loader::SoundAvm2`, so the
`NetStream` record just registered falls to the catch-all and the future
immediately yields `Error::NotLoadDataLoader` — it appends nothing to the
stream's buffer even for a fetch that would succeed.  The last two conjuncts
evaluate the completion callback that this mismatch makes unreachable,
showing what the claim (and the callback itself) expected: append the body
on success, report the error on failure. -/
theorem netstream_future_never_fetches :
    (((loadNetstream (LoaderArena.mk []) 7).1.getLoader
        (loadNetstream (LoaderArena.mk []) 7).2).map
      (fun l => streamLoaderBuild l (some 0)))
      = some (BuildResult.immediateError LoadError.notLoadDataLoader)
    ∧ streamLoaderCallback (some (Loader.netStream (some 0) 7)) (some [1, 2, 3])
      = ([Evt.streamLoadBuffer 7 [1, 2, 3]], .ok)
    ∧ streamLoaderCallback (some (Loader.netStream (some 0) 7)) none
      = ([Evt.streamReportError 7], .ok) := by
  refine ⟨rfl, rfl, rfl⟩

lemma formLookup_wrongKind (l : Loader) (h : l.isForm = false) :
    formLoaderLookup (some l) = .failed .notFormLoader := by
  cases l <;> first | rfl | simp [Loader.isForm] at h

lemma loadVarsLookup_wrongKind (l : Loader) (h : l.isLoadVars = false) :
    loadVarsLoaderLookup (some l) = .failed .notLoadVarsLoader := by
  cases l <;> first | rfl | simp [Loader.isLoadVars] at h

lemma soundAvm1Lookup_wrongKind (l : Loader) (h : l.isSoundAvm1 = false) :
    soundLoaderAvm1Lookup (some l) = .failed .notSoundLoader := by
  cases l <;> first | rfl | simp [Loader.isSoundAvm1] at h

lemma soundAvm2Lookup_wrongKind (l : Loader) (h : l.isSoundAvm2 = false) :
    soundLoaderAvm2Lookup (some l) = .failed .notSoundLoader := by
  cases l <;> first | rfl | simp [Loader.isSoundAvm2] at h

lemma netStreamLookup_wrongKind (l : Loader) (h : l.isNetStream = false) :
    netStreamLoaderLookup (some l) = .failed .notNetStreamLoader := by
  cases l <;> first | rfl | simp [Loader.isNetStream] at h

lemma urlLoaderLookup_wrongKind (l : Loader) (h : l.isLoadURLLoader = false) :
    loadUrlLoaderLookup (some l) = .panicked := by
  cases l <;> first | rfl | simp [Loader.isLoadURLLoader] at h

/-- C3 counterexample: in `load_url_loader`'s completion callback a missing
record hits `unreachable!()` (a panic), not `Cancelled`; and in
`form_loader`'s callback a wrong-kind record yields the `NotFormLoader`
error, not a panic.  Both contradict the claim as stated. -/
theorem nonmovie_lookup_claim_counterexample :
    loadUrlLoaderLookup none = .panicked
    ∧ loadUrlLoaderLookup none ≠ .failed .cancelled
    ∧ formLoaderLookup (some (Loader.loadVars (some 0) 1)) = .failed .notFormLoader
    ∧ formLoaderLookup (some (Loader.loadVars (some 0) 1)) ≠ .panicked := by
  refine ⟨rfl, by decide, rfl, by decide⟩

/-- C3 amended: the Form, LoadVars, SoundA, SoundB and NetStream completion
callbacks yield `Cancelled` on a missing record (with no state changes) and
a kind-specific loader-mismatch error — never a panic — on a wrong-kind
record; the UrlLoader completion callback instead panics (`unreachable!()`)
both on a missing record and on a wrong-kind record. -/
theorem nonmovie_lookup_behavior
    (l1 l2 l3 l4 l5 l6 : Loader)
    (h1 : l1.isForm = false) (h2 : l2.isLoadVars = false)
    (h3 : l3.isSoundAvm1 = false) (h4 : l4.isSoundAvm2 = false)
    (h5 : l5.isNetStream = false) (h6 : l6.isLoadURLLoader = false) :
    formLoaderLookup none = .failed .cancelled
    ∧ loadVarsLoaderLookup none = .failed .cancelled
    ∧ soundLoaderAvm1Lookup none = .failed .cancelled
    ∧ soundLoaderAvm2Lookup none = .failed .cancelled
    ∧ netStreamLoaderLookup none = .failed .cancelled
    ∧ formLoaderLookup (some l1) = .failed .notFormLoader
    ∧ loadVarsLoaderLookup (some l2) = .failed .notLoadVarsLoader
    ∧ soundLoaderAvm1Lookup (some l3) = .failed .notSoundLoader
    ∧ soundLoaderAvm2Lookup (some l4) = .failed .notSoundLoader
    ∧ netStreamLoaderLookup (some l5) = .failed .notNetStreamLoader
    ∧ loadUrlLoaderLookup none = .panicked
    ∧ loadUrlLoaderLookup (some l6) = .panicked :=
  ⟨rfl, rfl, rfl, rfl, rfl,
   formLookup_wrongKind l1 h1, loadVarsLookup_wrongKind l2 h2,
   soundAvm1Lookup_wrongKind l3 h3, soundAvm2Lookup_wrongKind l4 h4,
   netStreamLookup_wrongKind l5 h5, rfl, urlLoaderLookup_wrongKind l6 h6⟩

/-- C3 witness: the amended behaviour at concrete wrong-kind records. -/
theorem nonmovie_lookup_behavior_witness :
    formLoaderLookup none = .failed .cancelled
    ∧ loadVarsLoaderLookup none = .failed .cancelled
    ∧ soundLoaderAvm1Lookup none = .failed .cancelled
    ∧ soundLoaderAvm2Lookup none = .failed .cancelled
    ∧ netStreamLoaderLookup none = .failed .cancelled
    ∧ formLoaderLookup (some (Loader.rootMovie none)) = .failed .notFormLoader
    ∧ loadVarsLoaderLookup (some (Loader.rootMovie none)) = .failed .notLoadVarsLoader
    ∧ soundLoaderAvm1Lookup (some (Loader.rootMovie none)) = .failed .notSoundLoader
    ∧ soundLoaderAvm2Lookup (some (Loader.rootMovie none)) = .failed .notSoundLoader
    ∧ netStreamLoaderLookup (some (Loader.rootMovie none)) = .failed .notNetStreamLoader
    ∧ loadUrlLoaderLookup none = .panicked
    ∧ loadUrlLoaderLookup (some (Loader.rootMovie none)) = .panicked :=
  nonmovie_lookup_behavior (.rootMovie none) (.rootMovie none) (.rootMovie none)
    (.rootMovie none) (.rootMovie none) (.rootMovie none) rfl rfl rfl rfl rfl rfl

/-- C4 counterexample: with a dead weak reference, constructing the movie
loader's future panics (`expect("Could not upgrade weak reference to
player")`) instead of the claimed silent no-effect termination — and the
upgrade happens eagerly at registration, not "when the future runs". -/
theorem loader_future_weakref_counterexample :
    movieLoaderBuild (Loader.movie (some 0) 1 none .pending none none) none
      = .panicked "Could not upgrade weak reference to player" := rfl

/-- C4 amended: each `load_*` entry point upgrades the weak player reference
synchronously while building the future, panicking if the player is gone,
and the returned future captures the upgraded strong reference. -/
theorem loader_future_upgrade_behavior (sh tc : Nat)
    (eh : Option MovieLoaderEventHandler) (st : LoaderStatus) (mv ad : Option Nat)
    (p : Nat) :
    movieLoaderBuild (.movie (some sh) tc eh st mv ad) (some p) = .futureHolding sh p
    ∧ movieLoaderBuild (.movie (some sh) tc eh st mv ad) none
        = .panicked "Could not upgrade weak reference to player"
    ∧ soundLoaderAvm2Build (.soundAvm2 (some sh) tc) (some p) = .futureHolding sh p
    ∧ soundLoaderAvm2Build (.soundAvm2 (some sh) tc) none
        = .panicked "Could not upgrade weak reference to player" :=
  ⟨rfl, rfl, rfl, rfl⟩

/-- C8: on a failed fetch, `load_url_loader` sets the target's `data` to the
chosen format applied to an empty buffer (empty string for Text, empty byte
array for Binary), dispatches `ioError` with message
`"Error #2032: Stream Error"` and code 2032, and dispatches no `complete`. -/
theorem url_loader_failure_behavior (t : Nat) (fmt : DataFormat) :
    loadUrlLoaderApply t fmt none
      = [Evt.setData t (setDataValue [] fmt),
         Evt.ioErrorEvt t "Error #2032: Stream Error" 2032]
    ∧ setDataValue [] .text = .utf8Str []
    ∧ setDataValue [] .binary = .byteArray []
    ∧ Evt.bareEvent t "complete" ∉ loadUrlLoaderApply t fmt none := by
  refine ⟨rfl, rfl, rfl, ?_⟩
  simp [loadUrlLoaderApply]

/-- C9: for every LoadVars load, on fetch success the first effect sets
`_bytesTotal` to the body length, `_bytesLoaded` is set exactly when the
body is non-empty, and the callback ends with `onHTTPStatus(200)` followed
by `onData` carrying the decoded text (or `Undefined` for an empty body);
on fetch failure it calls `onHTTPStatus(404)` then `onData(Undefined)`. -/
theorem load_vars_callback_behavior (t : Nat) (body : List Nat) :
    (loadVarsApply t (some body)).head?
        = some (Evt.setProp t "_bytesTotal" (.num body.length))
    ∧ (Evt.setProp t "_bytesLoaded" (.num body.length) ∈ loadVarsApply t (some body)
        ↔ 0 < body.length)
    ∧ (∃ pre, loadVarsApply t (some body)
        = pre ++ [Evt.callMethod t "onHTTPStatus" [.num 200],
                  Evt.callMethod t "onData"
                    [if body.length = 0 then AvmValue.undefined else .utf8Str body]])
    ∧ loadVarsApply t none
      = [Evt.callMethod t "onHTTPStatus" [.num 404],
         Evt.callMethod t "onData" [AvmValue.undefined]] := by
  refine ⟨?_, ?_, ?_, rfl⟩
  · cases body <;> rfl
  · cases body with
    | nil => simp [loadVarsApply]
    | cons a as => simp [loadVarsApply]
  · exact ⟨[Evt.setProp t "_bytesTotal" (.num body.length)]
        ++ (if 0 < body.length
            then [Evt.setProp t "_bytesLoaded" (.num body.length)] else []),
      by simp [loadVarsApply]⟩

/-- C7 counterexample: with a doubly nested SWZ container (every buffer
sniffs Unknown; extraction succeeds twice), the retry at the head of
`movie_loader_data` re-submits twice — the recursion has no one-level guard. -/
theorem swz_retry_claim_counterexample :
    swzRetryCount sniffAllUnknown extractTwice 5 [] = 2
    ∧ ¬ swzRetryCount sniffAllUnknown extractTwice 5 [] ≤ 1 := by decide

/-- C7 amended: the extracted bytes are re-submitted through
`movie_loader_data` once per successful extraction; the recursion stops
after exactly one re-submission whenever the extracted bytes no longer sniff
as Unknown or no longer extract, but nothing in the code limits the depth to
one level in general. -/
theorem swz_retry_single_level_conditions (sniff : List Nat → ContentType)
    (extract : List Nat → Option (List Nat)) (fuel : Nat) (data d : List Nat)
    (h1 : sniff data = ContentType.unknown) (h2 : extract data = some d)
    (h3 : sniff d ≠ ContentType.unknown ∨ extract d = none) :
    swzRetryCount sniff extract (fuel + 2) data = 1 := by
  have inner : swzRetryCount sniff extract (fuel + 1) d = 0 := by
    rcases h3 with h3 | h3
    · simp [swzRetryCount, h3]
    · by_cases hs : sniff d = ContentType.unknown
      · simp [swzRetryCount, hs, h3]
      · simp [swzRetryCount, hs]
  show swzRetryCount sniff extract (fuel + 1 + 1) data = 1
  rw [swzRetryCount, if_pos h1, h2]
  show 1 + swzRetryCount sniff extract (fuel + 1) d = 1
  rw [inner]

/-- C7 witness: a single-level SWZ chain re-submits exactly once. -/
theorem swz_retry_single_level_witness :
    swzRetryCount sniffOnce extractOnce 2 [0] = 1 :=
  swz_retry_single_level_conditions sniffOnce extractOnce 0 [0] [1]
    (by decide) (by decide) (Or.inl (by decide))

lemma tick_statusDelta_cases (eh : Option MovieLoaderEventHandler) (clip : Nat)
    (ml tmc fin pOk lpOk : Bool) (cl ct : Nat) :
    (loaderPreloadTickRun eh clip ml tmc fin pOk lpOk cl ct).statusDelta = []
    ∨ (loaderPreloadTickRun eh clip ml tmc fin pOk lpOk cl ct).statusDelta
        = [LoaderStatus.succeeded] := by
  cases eh with
  | none =>
      cases ml <;> cases tmc <;> cases fin <;>
        simp [loaderPreloadTickRun, movieLoaderProgressStep, movieLoaderCompleteEvents]
  | some h =>
    cases h with
    | avm1Broadcast b =>
        cases ml <;> cases tmc <;> cases fin <;>
          simp [loaderPreloadTickRun, movieLoaderProgressStep, movieLoaderCompleteEvents]
    | avm2LoaderInfo li =>
        cases ml <;> cases tmc <;> cases fin <;> cases pOk <;> cases lpOk <;>
          simp [loaderPreloadTickRun, movieLoaderProgressStep, movieLoaderCompleteEvents]

lemma dataCore_statusDelta_cases (cfg : MovieRunCfg) (inMem : Bool)
    (sniffed : ContentType) (len0 : Nat) :
    (movieLoaderDataCore cfg inMem sniffed len0).statusDelta = []
    ∨ (movieLoaderDataCore cfg inMem sniffed len0).statusDelta = [LoaderStatus.parsing]
    ∨ (movieLoaderDataCore cfg inMem sniffed len0).statusDelta
        = [LoaderStatus.parsing, LoaderStatus.succeeded]
    ∨ (movieLoaderDataCore cfg inMem sniffed len0).statusDelta
        = [LoaderStatus.succeeded] := by
  cases sniffed with
  | swf =>
    by_cases hp : cfg.parseOk = false
    · simp [movieLoaderDataCore, hp]
    · cases heh : cfg.eventHandler with
      | none =>
          rcases tick_statusDelta_cases none cfg.clip true cfg.targetIsMovieClip
              cfg.preloadFinishes cfg.progressOk cfg.loaderPropOk
              cfg.compressedLoaded cfg.compressedTotal with h | h <;>
            simp [movieLoaderDataCore, hp, heh, h]
      | some ehh =>
        cases ehh with
        | avm1Broadcast b =>
            rcases tick_statusDelta_cases (some (.avm1Broadcast b)) cfg.clip true
                cfg.targetIsMovieClip cfg.preloadFinishes cfg.progressOk
                cfg.loaderPropOk cfg.compressedLoaded cfg.compressedTotal with h | h <;>
              simp [movieLoaderDataCore, hp, heh, h]
        | avm2LoaderInfo li =>
          by_cases hpr : cfg.progressOk = false
          · simp [movieLoaderDataCore, hp, heh, hpr]
          · simp only [Bool.not_eq_false] at hpr
            rcases tick_statusDelta_cases (some (.avm2LoaderInfo li)) cfg.clip true
                cfg.targetIsMovieClip cfg.preloadFinishes true
                cfg.loaderPropOk cfg.compressedLoaded cfg.compressedTotal with h | h <;>
              simp [movieLoaderDataCore, hp, heh, hpr, h]
  | unknown =>
    simp only [movieLoaderDataCore]
    repeat' split
    all_goals simp
  | jpeg =>
    simp only [movieLoaderDataCore]
    repeat' split
    all_goals simp
  | png =>
    simp only [movieLoaderDataCore]
    repeat' split
    all_goals simp
  | gif =>
    simp only [movieLoaderDataCore]
    repeat' split
    all_goals simp

lemma run_statusDelta_cases (cfg : MovieRunCfg) (rr rp : Bool) (f : FetchOutcome) :
    (movieLoaderRun cfg rr rp f).statusDelta = []
    ∨ (movieLoaderRun cfg rr rp f).statusDelta = [LoaderStatus.parsing]
    ∨ (movieLoaderRun cfg rr rp f).statusDelta
        = [LoaderStatus.parsing, LoaderStatus.succeeded]
    ∨ (movieLoaderRun cfg rr rp f).statusDelta = [LoaderStatus.succeeded]
    ∨ (movieLoaderRun cfg rr rp f).statusDelta = [LoaderStatus.failed] := by
  cases rp with
  | false => simp [movieLoaderRun]
  | true =>
    cases f with
    | failure =>
      rcases cfg with ⟨clip, eh, tmc, pOk, dOk, fin, prOk, lpOk, eeOk, cl, ct⟩
      rcases eh with _ | eh2
      · simp [movieLoaderRun, movieLoaderErrorStep]
      · cases eh2 <;> cases eeOk <;>
          simp [movieLoaderRun, movieLoaderErrorStep]
    | success sniffed len =>
      cases rr with
      | true =>
        by_cases hs : sniffed = ContentType.swf <;>
          by_cases hp : cfg.parseOk = true <;>
          simp [movieLoaderRun, hs, hp]
      | false =>
        rcases dataCore_statusDelta_cases cfg false sniffed len with h | h | h | h <;>
          simp [movieLoaderRun, h]

/-- C2 counterexample: a movie load whose bytes dispatch as `Unknown` (e.g.
random bytes with no successful SWZ extraction) goes `Pending → Succeeded`
directly, a status sequence that is a prefix of neither
`Pending, Parsing, Succeeded` nor `Pending, Failed`. -/
theorem movie_status_trace_claim_counterexample :
    movieLifetimeTrace ⟨0, none, false, true, true, true, true, true, true, 0, 0⟩
        false true false (.success .unknown 5)
      = [LoaderStatus.pending, LoaderStatus.succeeded]
    ∧ ([LoaderStatus.pending, LoaderStatus.succeeded].isPrefixOf
        [LoaderStatus.pending, LoaderStatus.parsing, LoaderStatus.succeeded]) = false
    ∧ ([LoaderStatus.pending, LoaderStatus.succeeded].isPrefixOf
        [LoaderStatus.pending, LoaderStatus.failed]) = false := by decide

/-- C2 amended: over a `Movie` record's lifetime the observed status
sequence is a prefix of `Pending, Parsing, Succeeded` (URL/byte SWF loads),
of `Pending, Succeeded` (the image and Unknown content-dispatch paths of
`movie_loader_data`, which skip `Parsing`), or of `Pending, Failed`; no
other transition occurs. -/
theorem movie_status_trace_allowed (cfg : MovieRunCfg) (rr rp lf : Bool)
    (f : FetchOutcome) :
    traceAllowed (movieLifetimeTrace cfg rr rp lf f) = true := by
  rcases run_statusDelta_cases cfg rr rp f with h | h | h | h | h <;>
    simp only [movieLifetimeTrace, h] <;> cases lf <;> decide

/-- C5 counterexample: a URL movie load with an AVM1 broadcaster sink whose
fetch fails still emits `onLoadStart` (it is broadcast in the registration
update section, before `fetch.await` resolves), followed by `onLoadError`. -/
theorem movie_start_event_claim_counterexample :
    (movieLoaderRun ⟨3, some (.avm1Broadcast 9), false, true, true, false, true, true,
        true, 0, 0⟩ false true .failure).evts
      = [Evt.broadcast 9 "onLoadStart" [AvmValue.obj 3],
         Evt.broadcast 9 "onLoadError"
           [AvmValue.obj 3, AvmValue.litStr "LoadNeverCompleted"]] := by decide

/-- C5 amended: the start event (`onLoadStart` / `open`) is emitted in the
registration update section — after the clip is reset but before the fetch
result is examined — so it precedes any parsing of bytes and is emitted
regardless of whether the fetch later succeeds or fails. -/
theorem movie_start_event_order (cfg : MovieRunCfg) (rr : Bool) (f : FetchOutcome) :
    (∃ rest, (movieLoaderRun cfg rr true f).evts
        = ((if cfg.targetIsMovieClip then [Evt.clipReset] else [])
            ++ movieLoaderStartEvents cfg.eventHandler cfg.clip) ++ rest)
    ∧ Evt.parsedMovie ∉ movieLoaderStartEvents cfg.eventHandler cfg.clip := by
  constructor
  · cases f with
    | failure =>
        refine ⟨(movieLoaderErrorStep cfg.eventHandler cfg.clip cfg.errorEvtOk).1, ?_⟩
        cases he : (movieLoaderErrorStep cfg.eventHandler cfg.clip cfg.errorEvtOk).2 <;>
          simp [movieLoaderRun, he]
    | success sniffed len =>
        cases rr with
        | true =>
          by_cases hs : sniffed = ContentType.swf
          · by_cases hp : cfg.parseOk = true
            · exact ⟨[Evt.parsedMovie, Evt.setRootMovie],
                by simp [movieLoaderRun, hs, hp]⟩
            · exact ⟨[], by simp [movieLoaderRun, hs, hp]⟩
          · exact ⟨[], by simp [movieLoaderRun, hs]⟩
        | false =>
          exact ⟨(movieLoaderDataCore cfg false sniffed len).evts,
            by simp [movieLoaderRun]⟩
  · cases heh : cfg.eventHandler with
    | none => simp [movieLoaderStartEvents]
    | some h => cases h <;> simp [movieLoaderStartEvents]

lemma treatedFinished_iff (e : LoadEntry) :
    entryTickTreatedFinished e = true
      ↔ (e.loader.isParsingMovie = true → (entryTick e).result ≠ .ok false) := by
  unfold entryTickTreatedFinished
  by_cases hp : e.loader.isParsingMovie = true
  · cases hr : (entryTick e).result with
    | ok fl => cases fl <;> simp [hp, hr]
    | err er => simp [hp, hr]
  · simp [hp]

lemma managerPreloadTickRun_general (entries : List LoadEntry) (b : Bool)
    (acc : List LoadEntry) :
    entries.foldl
      (fun acc e =>
        if e.loader.isParsingMovie then
          match (entryTick e).result with
          | .ok f => (acc.1 && f, acc.2 ++ [e])
          | .err _ => (acc.1, acc.2 ++ [e])
        else acc)
      (b, acc)
      = (b && entries.all entryTickTreatedFinished,
         acc ++ entries.filter (fun e => e.loader.isParsingMovie)) := by
  induction entries generalizing b acc with
  | nil => simp
  | cons e es ih =>
    by_cases hp : e.loader.isParsingMovie = true
    · cases hr : (entryTick e).result with
      | ok fl =>
          simp [List.foldl_cons, hp, hr, ih, entryTickTreatedFinished,
                Bool.and_assoc, List.filter_cons]
      | err er =>
          simp [List.foldl_cons, hp, hr, ih, entryTickTreatedFinished,
                List.filter_cons]
    · simp [List.foldl_cons, hp, ih, entryTickTreatedFinished, List.filter_cons]

/-- C6 counterexample: a single `Movie` record in `Parsing` whose advance
raises an error before finishing (`mc.preload` returned false and the AVM2
progress-event construction failed) leaves the accumulator untouched, so
`preload_tick` returns `true` — yet that movie neither finished preloading
during the tick nor was outside `Parsing` when the tick began. -/
theorem preload_tick_claim_counterexample :
    managerPreloadTick
        [⟨Loader.movie none 0 (some (.avm2LoaderInfo 2)) .parsing (some 1) none,
          ⟨true, false, false, true, 0, 0⟩⟩] = true
    ∧ allFinishedOrNotParsing
        [⟨Loader.movie none 0 (some (.avm2LoaderInfo 2)) .parsing (some 1) none,
          ⟨true, false, false, true, 0, 0⟩⟩] = false := by decide

/-- C6 amended: `preload_tick` advances exactly the `Movie` records that were
in `Parsing`, continuing past errors, and returns true iff no advanced record
reported `Ok(false)` — a record whose advance errored counts as finished,
whether or not its preload actually completed. -/
theorem preload_tick_characterization (entries : List LoadEntry) :
    (managerPreloadTick entries = true
      ↔ ∀ e ∈ entries, e.loader.isParsingMovie = true → (entryTick e).result ≠ .ok false)
    ∧ (managerPreloadTickRun entries).2
        = entries.filter (fun e => e.loader.isParsingMovie) := by
  have h1 : managerPreloadTickRun entries
      = (entries.all entryTickTreatedFinished,
         entries.filter (fun e => e.loader.isParsingMovie)) := by
    unfold managerPreloadTickRun
    rw [managerPreloadTickRun_general entries true []]
    simp
  constructor
  · rw [managerPreloadTick, h1]
    simp [List.all_eq_true, treatedFinished_iff]
  · rw [h1]
